import Mathlib

/-!
Shallow embedding of the webhook configuration generator
(`pkg/webhook/admission.go` descriptor logic and `pkg/webhook/generator.go`).

Go strings are Lean `String`s; Go slices are Lean `List`s; Go `nil` pointers
are `Option.none`; the registry `map[string]Webhook` is an association list
`List (String × AdmissionWebhook)` in some iteration order (Go map iteration
order is unspecified, so order-dependence questions are asked by quantifying
over permutations of the list).  The `sync.Once` defaulting guard is the
boolean field `defaulted`.  Fallible Go functions return `Except GenError`.
-/

namespace Webhook

/-- Webhook kind: `webhookType` constants `webhookTypeMutating` /
`webhookTypeValidating`; `unsupported` stands for any other value of the
underlying Go integer type. -/
inductive WebhookType where
  | mutating
  | validating
  | unsupported
deriving DecidableEq, Repr

/-- `admissionregistrationv1beta1.RuleWithOperations`. -/
structure RuleWithOperations where
  apiGroups : List String
  apiVersions : List String
  resources : List String
  operations : List String
deriving DecidableEq, Repr

/-- One entry of `metav1.LabelSelector.MatchExpressions`. -/
structure LabelSelectorRequirement where
  key : String
  operator : String
  values : List String
deriving DecidableEq, Repr

/-- `metav1.LabelSelector`. -/
structure LabelSelector where
  matchLabels : List (String × String)
  matchExpressions : List LabelSelectorRequirement
deriving DecidableEq, Repr

/-- `admissionregistrationv1beta1.FailurePolicyType`. -/
inductive FailurePolicyType where
  | ignore
  | fail
deriving DecidableEq, Repr

/-- The `admissionWebhook` descriptor struct.  `defaulted` models the
`sync.Once` guard state (`false` = the once has not fired yet). -/
structure AdmissionWebhook where
  name : String
  t : WebhookType
  path : String
  rules : List RuleWithOperations
  failurePolicy : Option FailurePolicyType
  namespaceSelector : Option LabelSelector
  defaulted : Bool
deriving DecidableEq, Repr

/-- `strings.ToLower(regexp.MustCompile("[^a-zA-Z0-9]+").ReplaceAllString(p, ""))`:
drop every rune that is not an ASCII letter or digit, then lower-case. -/
def processPath (p : String) : String :=
  String.mk ((p.toList.filter Char.isAlphanum).map Char.toLower)

/-- The name-defaulting tail of `setDefaults`: if `name` is empty, derive it
from `path`. -/
def defaultName (w : AdmissionWebhook) : AdmissionWebhook :=
  if w.name = "" then { w with name := processPath w.path ++ ".example.com" } else w

/-- `(*admissionWebhook).setDefaults`.  When `path` is empty and the first
rule has no resource (or there is no rule), the Go code returns early and
name defaulting is skipped too. -/
def setDefaults (w : AdmissionWebhook) : AdmissionWebhook :=
  if w.path = "" then
    match w.rules with
    | [] => w
    | r :: _ =>
      match r.resources with
      | [] => w
      | a :: _ =>
        if w.t = .mutating then defaultName { w with path := "/mutate-" ++ a }
        else if w.t = .validating then defaultName { w with path := "/validate-" ++ a }
        else defaultName w
  else defaultName w

/-- `w.once.Do(w.setDefaults)`: run `setDefaults` only if the once has not
fired, and mark it fired. -/
def onceDo (w : AdmissionWebhook) : AdmissionWebhook :=
  if w.defaulted then w else { setDefaults w with defaulted := true }

/-- `(*admissionWebhook).GetName`; returns the value and the updated
descriptor state. -/
def GetName (w : AdmissionWebhook) : String × AdmissionWebhook :=
  let w' := onceDo w
  (w'.name, w')

/-- `(*admissionWebhook).GetPath`. -/
def GetPath (w : AdmissionWebhook) : String × AdmissionWebhook :=
  let w' := onceDo w
  (w'.path, w')

/-- `(*admissionWebhook).GetType`. -/
def GetType (w : AdmissionWebhook) : WebhookType × AdmissionWebhook :=
  let w' := onceDo w
  (w'.t, w')

/-- The error values the generator can produce, one constructor per distinct
`errors.New`/`fmt.Errorf` site. -/
inductive GenError where
  | emptyRules
  | emptyName
  | unsupportedType (t : WebhookType)
  | emptyPath
  | hostAndService
  | urlParse
deriving DecidableEq, Repr

/-- The four checks of `(*admissionWebhook).Validate`, in source order,
evaluated on the (already defaulted) descriptor fields. -/
def validateChecks (w : AdmissionWebhook) : Option GenError :=
  if w.rules = [] then some .emptyRules
  else if w.name = "" then some .emptyName
  else if w.t ≠ .mutating ∧ w.t ≠ .validating then some (.unsupportedType w.t)
  else if w.path = "" then some .emptyPath
  else none

/-- `(*admissionWebhook).Validate`: fires the once-guarded defaulting, then
runs the four checks; returns the error (if any) and the updated state. -/
def Validate (w : AdmissionWebhook) : Option GenError × AdmissionWebhook :=
  let w' := onceDo w
  (validateChecks w', w')

/-- The `service` struct of generator.go (the Service the generator may
emit in front of the webhook server).  Field `ns` is the Go field
`namespace` (a Lean keyword). -/
structure service where
  name : String
  ns : String
  selectors : List (String × String)
deriving DecidableEq, Repr

/-- `generatorOptions`.  The registry `map[string]Webhook` is carried as an
association list in some iteration order; `port : Int` embeds the Go
`int32` (no arithmetic is performed on it, only the `≤ 0` test and
printing). -/
structure generatorOptions where
  registry : List (String × AdmissionWebhook)
  port : Int
  certDir : String
  mutatingWebhookConfigName : String
  validatingWebhookConfigName : String
  secret : Option (String × String)
  service : Option service
  host : Option String
deriving DecidableEq, Repr

/-- `(*generatorOptions).setDefault`.  (The Go nil-map-to-empty-map step for
`registry` is invisible here because the registry is already a list.) -/
def setDefault (o : generatorOptions) : generatorOptions :=
  let o := if o.port ≤ 0 then { o with port := 443 } else o
  let o := if o.certDir = "" then { o with certDir := "k8s-webhook-server/cert" } else o
  let o := if o.mutatingWebhookConfigName = "" then
      { o with mutatingWebhookConfigName := "mutating-webhook-configuration" } else o
  let o := if o.validatingWebhookConfigName = "" then
      { o with validatingWebhookConfigName := "validating-webhook-configuration" } else o
  if o.host = none ∧ o.service = none then { o with host := some "localhost" } else o

/-- `admissionregistration.ServiceReference` (field `ns` is the Go
`Namespace`). -/
structure ServiceReference where
  name : String
  ns : String
  path : Option String
deriving DecidableEq, Repr

/-- `admissionregistration.WebhookClientConfig`; `serviceRef` is the Go
field `Service`, `caBundle` the `CABundle` byte slice. -/
structure WebhookClientConfig where
  url : Option String
  serviceRef : Option ServiceReference
  caBundle : List Nat
deriving DecidableEq, Repr

/-- `net.JoinHostPort`: brackets the host when it contains a colon
(IPv6 literal).  The colon test is done on the character list. -/
def joinHostPort (host port : String) : String :=
  if ':' ∈ host.data then "[" ++ host ++ "]:" ++ port
  else host ++ ":" ++ port

/-- The UTF-8 byte encoding of a character (net/url escapes strings
byte-wise). -/
def utf8Bytes (c : Char) : List Nat :=
  let n := c.toNat
  if n < 0x80 then [n]
  else if n < 0x800 then [0xC0 + n / 0x40, 0x80 + n % 0x40]
  else if n < 0x10000 then [0xE0 + n / 0x1000, 0x80 + n / 0x40 % 0x40, 0x80 + n % 0x40]
  else [0xF0 + n / 0x40000, 0x80 + n / 0x1000 % 0x40, 0x80 + n / 0x40 % 0x40, 0x80 + n % 0x40]

/-- One digit of net/url's `upperhex` alphabet. -/
def hexDigitChar (n : Nat) : Char :=
  if n < 10 then Char.ofNat (48 + n) else Char.ofNat (55 + n)

/-- net/url `shouldEscape(c, encodeHost)` at the rune level: ASCII
alphanumerics, the RFC 3986 unreserved marks, and the extra characters Go
allows in a host stay unescaped; every other rune is escaped (for a
non-ASCII rune each of its UTF-8 bytes is ≥ 0x80, so every one of its
bytes is escaped). -/
def shouldEscapeHostChar (c : Char) : Bool :=
  !(c.isAlphanum ||
    ['-', '_', '.', '~', '!', '$', '&', Char.ofNat 39, '(', ')', '*', '+', ',', ';', '=',
     ':', '[', ']', '<', '>', Char.ofNat 34].contains c)

/-- net/url `shouldEscape(c, encodePath)` at the rune level: ASCII
alphanumerics, the unreserved marks, and `$&+,/:;=@` stay unescaped in a
path; everything else is escaped. -/
def shouldEscapePathChar (c : Char) : Bool :=
  !(c.isAlphanum ||
    ['-', '_', '.', '~', '$', '&', '+', ',', '/', ':', ';', '=', '@'].contains c)

/-- net/url `escape`: percent-escape (upper-case hex, byte-wise) the
characters selected by `q`. -/
def percentEscape (q : Char → Bool) (s : String) : String :=
  String.mk (s.data.flatMap fun c =>
    if q c then (utf8Bytes c).flatMap fun b => '%' :: [hexDigitChar (b / 16), hexDigitChar (b % 16)]
    else [c])

/-- `escape(host, encodeHost)`, applied by `url.URL.String` to the host
component. -/
def escapeHost (s : String) : String :=
  percentEscape shouldEscapeHostChar s

/-- `escape(path, encodePath)`, applied by `url.URL.String` to the path
component. -/
def escapePath (s : String) : String :=
  percentEscape shouldEscapePathChar s

/-- `(*generatorOptions).getClientConfig`.  The `url.URL{Scheme, Host}`
value stringifies to `"https://"` followed by the escaped host-port. -/
def getClientConfig (o : generatorOptions) : Except GenError WebhookClientConfig :=
  if o.host.isSome ∧ o.service.isSome then .error .hostAndService
  else
    let cc : WebhookClientConfig := { url := none, serviceRef := none, caBundle := [] }
    let cc := match o.host with
      | some h =>
          { cc with url := some ("https://" ++ escapeHost (joinHostPort h (toString o.port))) }
      | none => cc
    let cc := match o.service with
      | some s => { cc with serviceRef := some { name := s.name, ns := s.ns, path := none } }
      | none => cc
    .ok cc

/-- A hex digit, as net/url `ishex` accepts them. -/
def isHexDigitChar (c : Char) : Bool :=
  (48 ≤ c.toNat && c.toNat ≤ 57) || (97 ≤ c.toNat && c.toNat ≤ 102) ||
    (65 ≤ c.toNat && c.toNat ≤ 70)

/-- The value of a hex digit (net/url `unhex`). -/
def hexCharVal (c : Char) : Nat :=
  if 48 ≤ c.toNat && c.toNat ≤ 57 then c.toNat - 48
  else if 97 ≤ c.toNat && c.toNat ≤ 102 then c.toNat - 97 + 10
  else c.toNat - 65 + 10

/-- The authority component of a `https://...` URL string: the characters
after the 8-character scheme prefix up to the first delimiter. -/
def authorityOf (u : String) : List Char :=
  (u.data.drop 8).takeWhile fun c => !(c == '/' || c == '?' || c == '#')

/-- The host check of net/url `unescape(host, encodeHost)`, which
`url.Parse` runs on the authority: every `%` must be followed by two hex
digits, and a `%`-escape of an ASCII byte that `shouldEscape` would have
escaped is rejected (`InvalidHostError`); escapes of bytes ≥ 0x80 are
accepted. -/
def hostUnescapeOK : List Char → Bool
  | [] => true
  | c :: rest =>
    if c = '%' then
      match rest with
      | a :: b :: rest2 =>
        if isHexDigitChar a && isHexDigitChar b then
          if 16 * hexCharVal a + hexCharVal b < 128 &&
              shouldEscapeHostChar (Char.ofNat (16 * hexCharVal a + hexCharVal b)) then
            false
          else hostUnescapeOK rest2
        else false
      | _ => false
    else hostUnescapeOK rest

/-- Whether the `url.Parse` call inside `setPath` succeeds on the client
config (vacuously true when no URL is set).  On the `https://authority`
URLs this generator builds, the only failure mode of `url.Parse` is the
host unescape check. -/
def parseOK (cc : WebhookClientConfig) : Bool :=
  match cc.url with
  | some u => hostUnescapeOK (authorityOf u)
  | none => true

/-- The updates `setPath` performs when the re-parse succeeds: append the
escaped path to the URL (re-serializing the parsed URL reproduces its
already canonical authority, and `url.URL.String` inserts a `/` between a
non-empty host and a non-empty path that does not start with one), and
record the path in the service reference. -/
def setPathPure (cc : WebhookClientConfig) (path : String) : WebhookClientConfig :=
  let cc := match cc.url with
    | some u =>
        { cc with url := some (u ++ (if path ≠ "" ∧ ¬ path.data.head? = some '/'
            then "/" ++ escapePath path else escapePath path)) }
    | none => cc
  match cc.serviceRef with
  | some s => { cc with serviceRef := some { s with path := some path } }
  | none => cc

/-- `setPath`: when a URL is set, `url.Parse` it (propagating the parse
error), set its path and re-serialize; also set the service reference
path. -/
def setPath (cc : WebhookClientConfig) (path : String) : Except GenError WebhookClientConfig :=
  if parseOK cc then .ok (setPathPure cc path) else .error .urlParse

/-- `(*generatorOptions).getClientConfigWithPath`. -/
def getClientConfigWithPath (o : generatorOptions) (path : String) :
    Except GenError WebhookClientConfig :=
  match getClientConfig o with
  | .error e => .error e
  | .ok cc => setPath cc path

/-- One webhook entry of a configuration object
(`admissionregistration.Webhook`). -/
structure WebhookEntry where
  name : String
  rules : List RuleWithOperations
  failurePolicy : Option FailurePolicyType
  namespaceSelector : Option LabelSelector
  clientConfig : WebhookClientConfig
deriving DecidableEq, Repr

/-- The selector `(*generatorOptions).admissionWebhook` installs when the
descriptor has none and a namespaced service is configured: exclude
objects labeled `control-plane` (a `DoesNotExist` requirement). -/
def defaultNamespaceSelector : LabelSelector :=
  { matchLabels := []
    matchExpressions := [{ key := "control-plane", operator := "DoesNotExist", values := [] }] }

/-- The selector-defaulting step at the top of
`(*generatorOptions).admissionWebhook`: install the default selector when
the descriptor has none and a namespaced service is configured. -/
def selectorDefault (o : generatorOptions) (wh : AdmissionWebhook) : AdmissionWebhook :=
  match wh.namespaceSelector, o.service with
  | none, some s =>
      if s.ns ≠ "" then { wh with namespaceSelector := some defaultNamespaceSelector } else wh
  | _, _ => wh

/-- `(*generatorOptions).admissionWebhook`: builds one webhook entry from a
registry pair (path, descriptor). -/
def admissionWebhookFor (o : generatorOptions) (path : String) (wh : AdmissionWebhook) :
    Except GenError WebhookEntry :=
  let wh := selectorDefault o wh
  match getClientConfigWithPath o path with
  | .error e => .error e
  | .ok cc =>
    .ok { name := wh.name, rules := wh.rules, failurePolicy := wh.failurePolicy,
          namespaceSelector := wh.namespaceSelector, clientConfig := cc }

/-- The client config `getClientConfig` returns whenever host and service
are not both set (the non-error payload, named so computations about the
loop over the registry stay readable). -/
def ccPure (o : generatorOptions) : WebhookClientConfig :=
  let cc : WebhookClientConfig := { url := none, serviceRef := none, caBundle := [] }
  let cc := match o.host with
    | some h =>
        { cc with url := some ("https://" ++ escapeHost (joinHostPort h (toString o.port))) }
    | none => cc
  match o.service with
  | some s => { cc with serviceRef := some { name := s.name, ns := s.ns, path := none } }
  | none => cc

/-- The webhook entry `admissionWebhookFor` produces in the non-error
case. -/
def entryPure (o : generatorOptions) (path : String) (wh : AdmissionWebhook) : WebhookEntry :=
  let wh := selectorDefault o wh
  { name := wh.name, rules := wh.rules, failurePolicy := wh.failurePolicy,
    namespaceSelector := wh.namespaceSelector, clientConfig := setPathPure (ccPure o) path }

/-- The validation loop at the top of `whConfigs`: validate each registry
entry in iteration order, stopping at the first error; since `Validate`
mutates the (pointer-shared) descriptor, the defaulted registry is
returned. -/
def validateAll : List (String × AdmissionWebhook) →
    Except GenError (List (String × AdmissionWebhook))
  | [] => .ok []
  | (p, w) :: rest =>
    match Validate w with
    | (some e, _) => .error e
    | (none, w') =>
      match validateAll rest with
      | .error e => .error e
      | .ok rest' => .ok ((p, w') :: rest')

/-- The collection loop shared by `mutatingWHConfigs` and
`validatingWHConfigs`: keep the registry entries whose `GetType()` equals
`ty` and build a webhook entry for each, in iteration order. -/
def collectWebhooks (o : generatorOptions) (ty : WebhookType) :
    List (String × AdmissionWebhook) → Except GenError (List WebhookEntry)
  | [] => .ok []
  | (p, w) :: rest =>
    let tw := GetType w
    if tw.1 ≠ ty then collectWebhooks o ty rest
    else
      match admissionWebhookFor o p tw.2 with
      | .error e => .error e
      | .ok e =>
        match collectWebhooks o ty rest with
        | .error e2 => .error e2
        | .ok es => .ok (e :: es)

/-- The entry list `collectWebhooks` produces in the non-error case: the
type-matching registry entries in iteration order, each mapped through the
entry builder. -/
def collectPure (o : generatorOptions) (ty : WebhookType)
    (reg : List (String × AdmissionWebhook)) : List WebhookEntry :=
  (reg.filter fun pw => (GetType pw.2).1 == ty).map fun pw =>
    entryPure o pw.1 (GetType pw.2).2

/-- Lexicographic string comparison on the character lists (the reflexive
closure of Go's byte-wise `<` on strings, which for valid UTF-8 agrees
with the rune-wise order). -/
def charsLE : List Char → List Char → Bool
  | [], _ => true
  | _ :: _, [] => false
  | a :: as, b :: bs =>
    if a < b then true
    else if b < a then false
    else charsLE as bs

/-- The comparison `sort.Slice` uses: order webhook entries by `Name`. -/
def entryLE (a b : WebhookEntry) : Prop :=
  charsLE a.name.data b.name.data = true

instance : DecidableRel entryLE := fun a b =>
  inferInstanceAs (Decidable (charsLE a.name.data b.name.data = true))


/-- The `sort.Slice(..., Name < Name)` step: sort the collected entries by
name. -/
def sortByName (l : List WebhookEntry) : List WebhookEntry :=
  List.insertionSort entryLE l

/-- The `runtime.Object` values `Generate` can emit.  `nilObject` is the
nil interface value (`getService` returns literal `nil` when no service is
configured, and `Generate` appends that return value unconditionally). -/
inductive RuntimeObject where
  | mutatingConfig (name : String) (webhooks : List WebhookEntry)
  | validatingConfig (name : String) (webhooks : List WebhookEntry)
  | serviceObject (name : String) (ns : String) (selectors : List (String × String))
      (port : Int) (targetPort : Int)
  | nilObject
deriving DecidableEq, Repr

/-- `(*generatorOptions).mutatingWHConfigs` over an (already validated,
hence defaulted) registry: collect, sort, and wrap in a configuration
object when non-empty, `none` otherwise. -/
def mutatingWHConfigs (o : generatorOptions) (reg : List (String × AdmissionWebhook)) :
    Except GenError (Option RuntimeObject) :=
  match collectWebhooks o .mutating reg with
  | .error e => .error e
  | .ok ws =>
    let ws := sortByName ws
    if ws.length > 0 then
      .ok (some (.mutatingConfig o.mutatingWebhookConfigName ws))
    else
      .ok none

/-- `(*generatorOptions).validatingWHConfigs`. -/
def validatingWHConfigs (o : generatorOptions) (reg : List (String × AdmissionWebhook)) :
    Except GenError (Option RuntimeObject) :=
  match collectWebhooks o .validating reg with
  | .error e => .error e
  | .ok ws =>
    let ws := sortByName ws
    if ws.length > 0 then
      .ok (some (.validatingConfig o.validatingWebhookConfigName ws))
    else
      .ok none

/-- `(*generatorOptions).whConfigs`: validate every descriptor, then append
the mutating and the validating configuration objects when present. -/
def whConfigs (o : generatorOptions) : Except GenError (List RuntimeObject) :=
  match validateAll o.registry with
  | .error e => .error e
  | .ok reg =>
    match mutatingWHConfigs o reg with
    | .error e => .error e
    | .ok m =>
      match validatingWHConfigs o reg with
      | .error e => .error e
      | .ok v =>
        let objs := match m with | some x => [x] | none => []
        let objs := match v with | some x => objs ++ [x] | none => objs
        .ok objs

/-- `(*generatorOptions).getService`: the fronting Service (external port
443, target port `o.port`), or the nil interface when no service is
configured. -/
def getService (o : generatorOptions) : RuntimeObject :=
  match o.service with
  | none => .nilObject
  | some s => .serviceObject s.name s.ns s.selectors 443 o.port

/-- `(*generatorOptions).Generate`: default the options, build the webhook
configurations, and append `getService`'s return value (appended even when
it is the nil interface). -/
def Generate (o : generatorOptions) : Except GenError (List RuntimeObject) :=
  let o := setDefault o
  match whConfigs o with
  | .error e => .error e
  | .ok whs => .ok (whs ++ [getService o])

/-- Equality on `Except` results is decidable, so concrete runs of the
generator can be evaluated inside proofs. -/
def exceptDecEq {ε α : Type} [DecidableEq ε] [DecidableEq α] :
    (x y : Except ε α) → Decidable (x = y)
  | .ok a, .ok b =>
    if h : a = b then .isTrue (h ▸ rfl)
    else .isFalse (fun hc => h (Except.ok.inj hc))
  | .error a, .error b =>
    if h : a = b then .isTrue (h ▸ rfl)
    else .isFalse (fun hc => h (Except.error.inj hc))
  | .ok _, .error _ => .isFalse (fun hc => Except.noConfusion hc)
  | .error _, .ok _ => .isFalse (fun hc => Except.noConfusion hc)

instance {ε α : Type} [DecidableEq ε] [DecidableEq α] : DecidableEq (Except ε α) :=
  exceptDecEq

/-- The name lists of the mutating-configuration objects in an output list,
used to state the ordering example concisely. -/
def mutatingEntryNames : List RuntimeObject → List (List String)
  | [] => []
  | .mutatingConfig _ whs :: rest => whs.map WebhookEntry.name :: mutatingEntryNames rest
  | _ :: rest => mutatingEntryNames rest

/-- Options with an empty registry and every option left at its zero
value. -/
def oEmpty : generatorOptions :=
  { registry := [], port := 0, certDir := "", mutatingWebhookConfigName := "",
    validatingWebhookConfigName := "", secret := none, service := none, host := none }

/-- A valid mutating descriptor named `b.example.com` at path `/b`. -/
def whB : AdmissionWebhook :=
  { name := "b.example.com", t := .mutating, path := "/b",
    rules := [{ apiGroups := [], apiVersions := [], resources := ["pods"], operations := [] }],
    failurePolicy := none, namespaceSelector := none, defaulted := false }

/-- A valid mutating descriptor named `a.example.com` at path `/a`. -/
def whA : AdmissionWebhook :=
  { name := "a.example.com", t := .mutating, path := "/a",
    rules := [{ apiGroups := [], apiVersions := [], resources := ["pods"], operations := [] }],
    failurePolicy := none, namespaceSelector := none, defaulted := false }

/-- Registry holding `b.example.com` first and `a.example.com` second. -/
def oBA : generatorOptions :=
  { oEmpty with registry := [("/b", whB), ("/a", whA)] }

/-- A valid mutating descriptor with the duplicate name `x.example.com` at
path `/a`. -/
def whX1 : AdmissionWebhook := { whA with name := "x.example.com", path := "/a" }

/-- A second valid mutating descriptor with the same name `x.example.com`
but path `/b`. -/
def whX2 : AdmissionWebhook := { whA with name := "x.example.com", path := "/b" }

/-- The duplicate-name registry in one iteration order. -/
def oX12 : generatorOptions := { oEmpty with registry := [("/a", whX1), ("/b", whX2)] }

/-- The duplicate-name registry in the opposite iteration order. -/
def oX21 : generatorOptions := { oEmpty with registry := [("/b", whX2), ("/a", whX1)] }

/-- A descriptor with empty name, empty path and no rules: `setDefaults`
hits its early return on it. -/
def wEmpty : AdmissionWebhook :=
  { name := "", t := .mutating, path := "", rules := [], failurePolicy := none,
    namespaceSelector := none, defaulted := false }

/-- A descriptor with empty name and explicit path `/mutate-pods`. -/
def wPods : AdmissionWebhook :=
  { name := "", t := .mutating, path := "/mutate-pods", rules := [], failurePolicy := none,
    namespaceSelector := none, defaulted := false }

/-- Options with both a host and a service target set (and an empty
registry). -/
def oBoth : generatorOptions :=
  { oEmpty with host := some "h",
                service := some { name := "s", ns := "n", selectors := [] } }

/-- A rule whose first resource is `pods`. -/
def rulePods : RuleWithOperations :=
  { apiGroups := [], apiVersions := [], resources := ["pods"], operations := [] }

/-- A mutating descriptor with empty path and a rule carrying resource
`pods`: path defaulting applies to it. -/
def wAuto : AdmissionWebhook :=
  { name := "", t := .mutating, path := "", rules := [rulePods], failurePolicy := none,
    namespaceSelector := none, defaulted := false }

/-- Options fronted by a namespaced service (no host). -/
def oSvc : generatorOptions :=
  { oEmpty with service := some { name := "webhook-service", ns := "system", selectors := [] } }

/-- The webhook entry `admissionWebhookFor` builds from `oSvc`, path `/a`
and descriptor `whA`. -/
def eSvcA : WebhookEntry :=
  { name := "a.example.com", rules := [rulePods], failurePolicy := none,
    namespaceSelector := some defaultNamespaceSelector,
    clientConfig :=
      { url := none,
        serviceRef := some { name := "webhook-service", ns := "system", path := some "/a" },
        caBundle := [] } }

/-!  ## Helper lemmas about descriptor defaulting  -/

theorem defaultName_path (w : AdmissionWebhook) : (defaultName w).path = w.path := by
  unfold defaultName
  split <;> rfl

theorem defaultName_rules (w : AdmissionWebhook) : (defaultName w).rules = w.rules := by
  unfold defaultName
  split <;> rfl

theorem defaultName_t (w : AdmissionWebhook) : (defaultName w).t = w.t := by
  unfold defaultName
  split <;> rfl

theorem append_ne_empty_right (a b : String) (hb : b ≠ "") : a ++ b ≠ "" := by
  intro h
  have hd : a.data ++ b.data = [] := by
    have h2 := congrArg String.data h
    simpa [String.data_append] using h2
  exact hb (String.ext (List.append_eq_nil.mp hd).2)

theorem append_ne_empty_left (a b : String) (ha : a ≠ "") : a ++ b ≠ "" := by
  intro h
  have hd : a.data ++ b.data = [] := by
    have h2 := congrArg String.data h
    simpa [String.data_append] using h2
  exact ha (String.ext (List.append_eq_nil.mp hd).1)

theorem defaultName_of_name_empty (w : AdmissionWebhook) (h : w.name = "") :
    defaultName w = { w with name := processPath w.path ++ ".example.com" } := by
  unfold defaultName
  rw [if_pos h]

theorem defaultName_of_name_ne (w : AdmissionWebhook) (h : ¬ w.name = "") :
    defaultName w = w := by
  unfold defaultName
  rw [if_neg h]

theorem defaultName_name_ne_empty (w : AdmissionWebhook) : ¬ (defaultName w).name = "" := by
  unfold defaultName
  split
  · exact append_ne_empty_right _ ".example.com" (by decide)
  · assumption

theorem defaultName_idem (w : AdmissionWebhook) : defaultName (defaultName w) = defaultName w :=
  defaultName_of_name_ne _ (defaultName_name_ne_empty w)

theorem setDefaults_of_path_ne (w : AdmissionWebhook) (h : ¬ w.path = "") :
    setDefaults w = defaultName w := by
  unfold setDefaults
  rw [if_neg h]

theorem setDefaults_of_no_rules (w : AdmissionWebhook) (hp : w.path = "")
    (hr : w.rules = []) : setDefaults w = w := by
  unfold setDefaults
  rw [if_pos hp, hr]

theorem setDefaults_of_no_resources (w : AdmissionWebhook) (hp : w.path = "")
    (r : RuleWithOperations) (rs : List RuleWithOperations)
    (hr : w.rules = r :: rs) (hres : r.resources = []) : setDefaults w = w := by
  unfold setDefaults
  rw [if_pos hp, hr]
  simp [hres]

theorem setDefaults_mutating (w : AdmissionWebhook) (hp : w.path = "")
    (r : RuleWithOperations) (rs : List RuleWithOperations) (a : String) (l : List String)
    (hr : w.rules = r :: rs) (hres : r.resources = a :: l) (ht : w.t = .mutating) :
    setDefaults w = defaultName { w with path := "/mutate-" ++ a } := by
  unfold setDefaults
  rw [if_pos hp, hr]
  simp [hres, ht]

theorem setDefaults_validating (w : AdmissionWebhook) (hp : w.path = "")
    (r : RuleWithOperations) (rs : List RuleWithOperations) (a : String) (l : List String)
    (hr : w.rules = r :: rs) (hres : r.resources = a :: l)
    (hm : ¬ w.t = .mutating) (hv : w.t = .validating) :
    setDefaults w = defaultName { w with path := "/validate-" ++ a } := by
  unfold setDefaults
  rw [if_pos hp, hr]
  simp [hres, hm, hv]

theorem setDefaults_unsupported (w : AdmissionWebhook) (hp : w.path = "")
    (r : RuleWithOperations) (rs : List RuleWithOperations) (a : String) (l : List String)
    (hr : w.rules = r :: rs) (hres : r.resources = a :: l)
    (hm : ¬ w.t = .mutating) (hv : ¬ w.t = .validating) :
    setDefaults w = defaultName w := by
  unfold setDefaults
  rw [if_pos hp, hr]
  simp [hres, hm, hv]

theorem setDefaults_idem (w : AdmissionWebhook) :
    setDefaults (setDefaults w) = setDefaults w := by
  by_cases hp : w.path = ""
  · cases hr : w.rules with
    | nil =>
      rw [setDefaults_of_no_rules w hp hr, setDefaults_of_no_rules w hp hr]
    | cons r rs =>
      cases hres : r.resources with
      | nil =>
        rw [setDefaults_of_no_resources w hp r rs hr hres,
            setDefaults_of_no_resources w hp r rs hr hres]
      | cons a l =>
        by_cases hm : w.t = .mutating
        · rw [setDefaults_mutating w hp r rs a l hr hres hm]
          have hp2 : ¬ (defaultName { w with path := "/mutate-" ++ a }).path = "" := by
            rw [defaultName_path]
            exact append_ne_empty_left _ _ (by decide)
          rw [setDefaults_of_path_ne _ hp2, defaultName_idem]
        · by_cases hv : w.t = .validating
          · rw [setDefaults_validating w hp r rs a l hr hres hm hv]
            have hp2 : ¬ (defaultName { w with path := "/validate-" ++ a }).path = "" := by
              rw [defaultName_path]
              exact append_ne_empty_left _ _ (by decide)
            rw [setDefaults_of_path_ne _ hp2, defaultName_idem]
          · rw [setDefaults_unsupported w hp r rs a l hr hres hm hv]
            have hp2 : (defaultName w).path = "" := by rw [defaultName_path]; exact hp
            have hr2 : (defaultName w).rules = r :: rs := by rw [defaultName_rules]; exact hr
            have hm2 : ¬ (defaultName w).t = .mutating := by rw [defaultName_t]; exact hm
            have hv2 : ¬ (defaultName w).t = .validating := by rw [defaultName_t]; exact hv
            rw [setDefaults_unsupported _ hp2 r rs a l hr2 hres hm2 hv2, defaultName_idem]
  · rw [setDefaults_of_path_ne w hp]
    have hp2 : ¬ (defaultName w).path = "" := by rw [defaultName_path]; exact hp
    rw [setDefaults_of_path_ne _ hp2, defaultName_idem]

theorem onceDo_defaulted (w : AdmissionWebhook) : (onceDo w).defaulted = true := by
  unfold onceDo
  split
  · assumption
  · rfl

theorem onceDo_of_defaulted (w : AdmissionWebhook) (h : w.defaulted = true) :
    onceDo w = w := by
  unfold onceDo
  rw [if_pos h]

theorem onceDo_idem (w : AdmissionWebhook) : onceDo (onceDo w) = onceDo w :=
  onceDo_of_defaulted _ (onceDo_defaulted w)

/-!  ## Claim theorems about the descriptor  -/

/-- C4: for every descriptor with empty path that has at least one rule
whose first rule has at least one resource, `setDefaults` sets path to
`"/mutate-" ++ resources[0]` when the kind is mutating and
`"/validate-" ++ resources[0]` when validating; when the rules are empty
or the first rule has no resources, the path is left unset (silent
no-op). -/
theorem setDefaults_path_defaulting (w : AdmissionWebhook) (hp : w.path = "") :
    (∀ r rs a l, w.rules = r :: rs → r.resources = a :: l →
      ((w.t = .mutating → (setDefaults w).path = "/mutate-" ++ a) ∧
       (w.t = .validating → (setDefaults w).path = "/validate-" ++ a))) ∧
    ((w.rules = [] ∨ ∃ r rs, w.rules = r :: rs ∧ r.resources = []) →
      (setDefaults w).path = "") := by
  constructor
  · intro r rs a l hr hres
    constructor
    · intro ht
      rw [setDefaults_mutating w hp r rs a l hr hres ht, defaultName_path]
    · intro ht
      have hm : ¬ w.t = .mutating := by rw [ht]; intro hc; exact WebhookType.noConfusion hc
      rw [setDefaults_validating w hp r rs a l hr hres hm ht, defaultName_path]
  · rintro (hr | ⟨r, rs, hr, hres⟩)
    · rw [setDefaults_of_no_rules w hp hr]
      exact hp
    · rw [setDefaults_of_no_resources w hp r rs hr hres]
      exact hp

/-- C4 witness: the concrete mutating descriptor `wAuto` (empty path, one
rule with first resource `pods`) gets path `/mutate-pods`. -/
theorem setDefaults_path_defaulting_witness : (setDefaults wAuto).path = "/mutate-pods" := by
  have h := ((setDefaults_path_defaulting wAuto rfl).1 rulePods [] "pods" [] rfl rfl).1 rfl
  exact h.trans (by decide)

/-- C5 counterexample: the claim says every descriptor with empty name gets
`lowercase(strip(path)) ++ ".example.com"`, which at empty path would be
`".example.com"`; but on a descriptor with empty path and no rules,
`setDefaults` returns early and leaves the name empty. -/
theorem setDefaults_name_counterexample :
    wEmpty.name = "" ∧ (setDefaults wEmpty).name = "" ∧
    processPath wEmpty.path ++ ".example.com" = ".example.com" ∧
    ¬ (setDefaults wEmpty).name = processPath wEmpty.path ++ ".example.com" := by
  decide

/-- C5 (amended): for every descriptor with empty name, unless the
early-return case applies (empty path together with no rule or a
resource-less first rule, in which case the name stays empty), the name
becomes the post-defaulting path stripped of non-alphanumerics,
lower-cased, with `.example.com` appended. -/
theorem setDefaults_name_defaulting (w : AdmissionWebhook) (hn : w.name = "") :
    ((w.path = "" ∧ (w.rules = [] ∨ ∃ r rs, w.rules = r :: rs ∧ r.resources = [])) →
      (setDefaults w).name = "") ∧
    (¬(w.path = "" ∧ (w.rules = [] ∨ ∃ r rs, w.rules = r :: rs ∧ r.resources = [])) →
      (setDefaults w).name = processPath (setDefaults w).path ++ ".example.com") := by
  constructor
  · rintro ⟨hp, hr | ⟨r, rs, hr, hres⟩⟩
    · rw [setDefaults_of_no_rules w hp hr]
      exact hn
    · rw [setDefaults_of_no_resources w hp r rs hr hres]
      exact hn
  · intro hno
    by_cases hp : w.path = ""
    · cases hr : w.rules with
      | nil => exact absurd ⟨hp, Or.inl hr⟩ hno
      | cons r rs =>
        cases hres : r.resources with
        | nil => exact absurd ⟨hp, Or.inr ⟨r, rs, hr, hres⟩⟩ hno
        | cons a l =>
          by_cases hm : w.t = .mutating
          · rw [setDefaults_mutating w hp r rs a l hr hres hm, defaultName_path,
                defaultName_of_name_empty { w with path := "/mutate-" ++ a } hn]
          · by_cases hv : w.t = .validating
            · rw [setDefaults_validating w hp r rs a l hr hres hm hv, defaultName_path,
                  defaultName_of_name_empty { w with path := "/validate-" ++ a } hn]
            · rw [setDefaults_unsupported w hp r rs a l hr hres hm hv, defaultName_path,
                  defaultName_of_name_empty _ hn]
    · rw [setDefaults_of_path_ne w hp, defaultName_path, defaultName_of_name_empty _ hn]

/-- C5 witness: descriptor `wPods` with empty name and path `/mutate-pods`
gets name `mutatepods.example.com`. -/
theorem setDefaults_name_defaulting_witness :
    (setDefaults wPods).name = "mutatepods.example.com" := by
  have h := (setDefaults_name_defaulting wPods rfl).2 (fun hc => absurd hc.1 (by decide))
  exact h.trans (by decide)

/-- The four `Validate` checks, characterised on an arbitrary descriptor
state. -/
theorem validateChecks_spec (x : AdmissionWebhook) :
    (validateChecks x = none ↔
      ¬(x.rules = [] ∨ x.name = "" ∨ (¬ x.t = .mutating ∧ ¬ x.t = .validating) ∨
        x.path = "")) ∧
    (x.rules = [] → validateChecks x = some .emptyRules) ∧
    (¬ x.rules = [] → x.name = "" → validateChecks x = some .emptyName) ∧
    (¬ x.rules = [] → ¬ x.name = "" → ¬ x.t = .mutating → ¬ x.t = .validating →
      validateChecks x = some (.unsupportedType x.t)) ∧
    (¬ x.rules = [] → ¬ x.name = "" → (x.t = .mutating ∨ x.t = .validating) →
      x.path = "" → validateChecks x = some .emptyPath) := by
  unfold validateChecks
  by_cases h1 : x.rules = [] <;> by_cases h2 : x.name = "" <;>
    by_cases h3 : x.t = .mutating <;> by_cases h4 : x.t = .validating <;>
      by_cases h5 : x.path = "" <;>
        simp_all

/-- C6: `Validate` (which first triggers the once-guarded defaulting)
returns an error exactly when, on the defaulted state, the rules are
empty, the name is empty, the kind is neither mutating nor validating, or
the path is empty; the checks run in that order and the first failing one
determines the error. -/
theorem validate_error_conditions (w : AdmissionWebhook) :
    ((Validate w).1 = none ↔
      ¬((onceDo w).rules = [] ∨ (onceDo w).name = "" ∨
        (¬ (onceDo w).t = .mutating ∧ ¬ (onceDo w).t = .validating) ∨
        (onceDo w).path = "")) ∧
    ((onceDo w).rules = [] → (Validate w).1 = some .emptyRules) ∧
    (¬ (onceDo w).rules = [] → (onceDo w).name = "" →
      (Validate w).1 = some .emptyName) ∧
    (¬ (onceDo w).rules = [] → ¬ (onceDo w).name = "" →
      ¬ (onceDo w).t = .mutating → ¬ (onceDo w).t = .validating →
      (Validate w).1 = some (.unsupportedType (onceDo w).t)) ∧
    (¬ (onceDo w).rules = [] → ¬ (onceDo w).name = "" →
      ((onceDo w).t = .mutating ∨ (onceDo w).t = .validating) →
      (onceDo w).path = "" → (Validate w).1 = some .emptyPath) := by
  have h : (Validate w).1 = validateChecks (onceDo w) := rfl
  rw [h]
  exact validateChecks_spec (onceDo w)

/-- C6 witness: on the concrete rule-less descriptor `wEmpty`, `Validate`
reports the empty-rules error. -/
theorem validate_error_conditions_witness :
    (Validate wEmpty).1 = some GenError.emptyRules :=
  (validate_error_conditions wEmpty).2.1 (by decide)

/-!  ## Helper lemmas about the generator options  -/

theorem setDefault_fields (o : generatorOptions) :
    (setDefault o).registry = o.registry ∧
    (setDefault o).service = o.service ∧
    ((o.host = none ∧ o.service = none) → (setDefault o).host = some "localhost") ∧
    (¬(o.host = none ∧ o.service = none) → (setDefault o).host = o.host) := by
  by_cases h1 : o.port ≤ 0 <;> by_cases h2 : o.certDir = "" <;>
    by_cases h3 : o.mutatingWebhookConfigName = "" <;>
      by_cases h4 : o.validatingWebhookConfigName = "" <;>
        by_cases h5 : o.host = none ∧ o.service = none <;>
          simp [setDefault, h1, h2, h3, h4, h5]

theorem setDefault_registry_update (o : generatorOptions)
    (reg : List (String × AdmissionWebhook)) :
    setDefault { o with registry := reg } = { setDefault o with registry := reg } := by
  by_cases h1 : o.port ≤ 0 <;> by_cases h2 : o.certDir = "" <;>
    by_cases h3 : o.mutatingWebhookConfigName = "" <;>
      by_cases h4 : o.validatingWebhookConfigName = "" <;>
        by_cases h5 : o.host = none ∧ o.service = none <;>
          simp [setDefault, h1, h2, h3, h4, h5]

theorem whConfigs_nil (o : generatorOptions) (h : o.registry = []) :
    whConfigs o = .ok [] := by
  unfold whConfigs
  rw [h]
  rfl

theorem generate_nil_registry (o : generatorOptions) (h : o.registry = []) :
    Generate o = .ok [getService (setDefault o)] := by
  have h2 : (setDefault o).registry = [] := by
    rw [(setDefault_fields o).1, h]
  simp only [Generate]
  rw [whConfigs_nil _ h2]
  rfl

/-- C9: `setDefaults` is idempotent on the descriptor state, the
once-guard makes repeated triggering a no-op, and every accessor chain
leaves the state reached after the first accessor call unchanged. -/
theorem defaulting_idempotent (w : AdmissionWebhook) :
    setDefaults (setDefaults w) = setDefaults w ∧
    onceDo (onceDo w) = onceDo w ∧
    GetName (GetName w).2 = GetName w ∧
    (GetPath (GetName w).2).2 = (GetName w).2 ∧
    (GetType (GetPath w).2).2 = (GetPath w).2 ∧
    (Validate (GetType w).2).2 = (GetType w).2 ∧
    (Validate (Validate w).2).2 = (Validate w).2 := by
  refine ⟨setDefaults_idem w, onceDo_idem w, ?_, ?_, ?_, ?_, ?_⟩ <;>
    simp [GetName, GetPath, GetType, Validate, onceDo_idem]

/-!  ## Claim theorems about the generator  -/

/-- C1 counterexample: with an empty registry and no service configured
the claim predicts the output list `[]` (Service entry omitted entirely,
no placeholder); `Generate` actually returns a one-element list holding
the nil interface value that `getService` returned, because `Generate`
appends `getService`'s result unconditionally. -/
theorem generate_empty_counterexample :
    Generate oEmpty = .ok [RuntimeObject.nilObject] ∧
    ¬ Generate oEmpty = .ok ([] : List RuntimeObject) := by
  decide

/-- C1 (amended): for every options value with an empty registry,
`Generate` emits no webhook-configuration objects and returns exactly the
one-element list holding `getService`'s result: the Service object when a
service is configured, and the nil interface placeholder otherwise, so
the output order is [mutating-config?, validating-config?, service-slot]
with the last slot always present. -/
theorem generate_empty_registry (o : generatorOptions) (hreg : o.registry = []) :
    Generate o = .ok [getService (setDefault o)] ∧
    (o.service = none → Generate o = .ok [RuntimeObject.nilObject]) ∧
    (∀ s, o.service = some s →
      Generate o = .ok [RuntimeObject.serviceObject s.name s.ns s.selectors 443
        (setDefault o).port]) := by
  refine ⟨generate_nil_registry o hreg, ?_, ?_⟩
  · intro hs
    rw [generate_nil_registry o hreg]
    unfold getService
    rw [(setDefault_fields o).2.1, hs]
  · intro s hs
    rw [generate_nil_registry o hreg]
    unfold getService
    rw [(setDefault_fields o).2.1, hs]

/-- C1 witness: at the concrete empty options the amended claim yields the
nil placeholder output. -/
theorem generate_empty_registry_witness :
    Generate oEmpty = .ok [RuntimeObject.nilObject] :=
  (generate_empty_registry oEmpty rfl).2.1 rfl

/-- C2 counterexample: on options with both host and service set,
`setDefault` leaves both set — the claimed exactly-one-of-the-two state
does not hold after defaulting. -/
theorem setDefault_both_counterexample :
    oBoth.host.isSome = true ∧ oBoth.service.isSome = true ∧
    (setDefault oBoth).host.isSome = true ∧
    (setDefault oBoth).service.isSome = true := by
  decide

/-- C2 (amended): after `setDefault`, at least one of host and service is
set; host is defaulted to `localhost` exactly when neither was given; and
exactly one of the two is set afterwards unless both were already set
before defaulting (that state is passed through and only rejected later
when a client config is built). -/
theorem setDefault_host_service (o : generatorOptions) :
    ((setDefault o).host.isSome = true ∨ (setDefault o).service.isSome = true) ∧
    (o.host = none ∧ o.service = none →
      (setDefault o).host = some "localhost" ∧ (setDefault o).service = none) ∧
    (¬(o.host.isSome = true ∧ o.service.isSome = true) →
      ((setDefault o).host.isSome = true ↔ ¬ (setDefault o).service.isSome = true)) := by
  obtain ⟨-, hsvc, hboth, hkeep⟩ := setDefault_fields o
  refine ⟨?_, ?_, ?_⟩
  · by_cases hb : o.host = none ∧ o.service = none
    · left
      rw [hboth hb]
      rfl
    · rw [hkeep hb, hsvc]
      rcases ho : o.host with _ | h
      · rcases hs : o.service with _ | s
        · exact absurd ⟨ho, hs⟩ hb
        · right; rfl
      · left; rfl
  · intro hb
    exact ⟨hboth hb, by rw [hsvc, hb.2]⟩
  · intro hx
    by_cases hb : o.host = none ∧ o.service = none
    · rw [hboth hb, hsvc, hb.2]
      simp
    · rw [hkeep hb, hsvc]
      rcases ho : o.host with _ | h
      · rcases hs : o.service with _ | s
        · exact absurd ⟨ho, hs⟩ hb
        · simp
      · rcases hs : o.service with _ | s
        · simp
        · exact absurd ⟨by rw [ho]; rfl, by rw [hs]; rfl⟩ hx

/-- C2 witness: at the all-empty options the amended claim yields host
`localhost` and no service. -/
theorem setDefault_host_service_witness :
    (setDefault oEmpty).host = some "localhost" ∧ (setDefault oEmpty).service = none :=
  (setDefault_host_service oEmpty).2.1 ⟨rfl, rfl⟩

/-- C10: with an empty registry `Generate` always succeeds — in
particular when both host and service are set — because the
host/service mutual-exclusion check sits in the per-descriptor client
config construction, which is never reached without descriptors; hence a
`Generate` error implies a non-empty registry. -/
theorem generate_conflict_needs_descriptor (o : generatorOptions) :
    (o.registry = [] → ∃ objs, Generate o = .ok objs) ∧
    (∀ e, Generate o = .error e → ¬ o.registry = []) := by
  constructor
  · intro h
    exact ⟨_, generate_nil_registry o h⟩
  · intro e he h
    rw [generate_nil_registry o h] at he
    exact Except.noConfusion he

/-- C10 witness: the options with both host and service set and an empty
registry generate successfully. -/
theorem generate_conflict_needs_descriptor_witness :
    ∃ objs, Generate oBoth = .ok objs :=
  (generate_conflict_needs_descriptor oBoth).1 rfl

/-- C7: a webhook entry built from a descriptor without an explicit
namespace selector, under options with a namespaced service, carries the
default exclude-`control-plane` selector (a `DoesNotExist` requirement on
key `control-plane`); a descriptor with an explicit selector keeps it
unchanged. -/
theorem namespace_selector_defaulting (o : generatorOptions) (p : String)
    (wh : AdmissionWebhook) (e : WebhookEntry)
    (he : admissionWebhookFor o p wh = .ok e) :
    (∀ s, wh.namespaceSelector = none → o.service = some s → ¬ s.ns = "" →
      e.namespaceSelector = some defaultNamespaceSelector) ∧
    (∀ sel, wh.namespaceSelector = some sel → e.namespaceSelector = some sel) := by
  simp only [admissionWebhookFor] at he
  constructor
  · intro s hsel hsvc hns
    cases hcc : getClientConfigWithPath o p with
    | error err =>
      rw [hcc] at he
      exact Except.noConfusion he
    | ok cc =>
      rw [hcc] at he
      simp only [] at he
      rw [← Except.ok.inj he]
      show (selectorDefault o wh).namespaceSelector = some defaultNamespaceSelector
      unfold selectorDefault
      rw [hsel, hsvc]
      simp only []
      rw [if_pos hns]
  · intro sel hsel
    cases hcc : getClientConfigWithPath o p with
    | error err =>
      rw [hcc] at he
      exact Except.noConfusion he
    | ok cc =>
      rw [hcc] at he
      simp only [] at he
      rw [← Except.ok.inj he]
      show (selectorDefault o wh).namespaceSelector = some sel
      unfold selectorDefault
      rw [hsel]
      cases o.service <;> exact hsel

/-- C7 witness: the concrete build over `oSvc` (service namespace
`system`) and `whA` (no selector) yields the default exclude
`control-plane` selector. -/
theorem namespace_selector_defaulting_witness :
    eSvcA.namespaceSelector = some defaultNamespaceSelector :=
  (namespace_selector_defaulting oSvc "/a" whA eSvcA (by decide)).1
    { name := "webhook-service", ns := "system", selectors := [] } rfl rfl (by decide)

theorem getClientConfig_eq (o : generatorOptions)
    (hx : ¬(o.host.isSome = true ∧ o.service.isSome = true)) :
    getClientConfig o = .ok (ccPure o) := by
  unfold getClientConfig
  rw [if_neg hx]
  rfl

theorem charsLE_total : ∀ x y : List Char, charsLE x y = true ∨ charsLE y x = true
  | [], _ => Or.inl rfl
  | _ :: _, [] => Or.inr rfl
  | a :: as, b :: bs => by
    by_cases hab : a < b
    · left
      simp [charsLE, hab]
    · by_cases hba : b < a
      · right
        simp [charsLE, hba]
      · rcases charsLE_total as bs with h | h
        · left
          simp [charsLE, hab, hba, h]
        · right
          simp [charsLE, hba, hab, h]

theorem charsLE_trans :
    ∀ x y z : List Char, charsLE x y = true → charsLE y z = true → charsLE x z = true
  | [], _, _, _, _ => rfl
  | _ :: _, [], _, h, _ => by simp [charsLE] at h
  | _ :: _, _ :: _, [], _, h2 => by simp [charsLE] at h2
  | a :: as, b :: bs, c :: cs, h1, h2 => by
    simp only [charsLE] at h1 h2 ⊢
    by_cases hab : a < b
    · by_cases hbc : b < c
      · rw [if_pos (lt_trans hab hbc)]
      · by_cases hcb : c < b
        · rw [if_neg hbc, if_pos hcb] at h2
          exact Bool.noConfusion h2
        · have hbc2 : b = c := le_antisymm (not_lt.mp hcb) (not_lt.mp hbc)
          rw [if_pos (hbc2 ▸ hab)]
    · by_cases hba : b < a
      · rw [if_neg hab, if_pos hba] at h1
        exact Bool.noConfusion h1
      · have hab2 : a = b := le_antisymm (not_lt.mp hba) (not_lt.mp hab)
        rw [if_neg hab, if_neg hba] at h1
        subst hab2
        by_cases hac : a < c
        · rw [if_pos hac]
        · by_cases hca : c < a
          · rw [if_neg hac, if_pos hca] at h2
            exact Bool.noConfusion h2
          · rw [if_neg hac, if_neg hca] at h2 ⊢
            exact charsLE_trans as bs cs h1 h2

theorem charsLE_antisymm :
    ∀ x y : List Char, charsLE x y = true → charsLE y x = true → x = y
  | [], [], _, _ => rfl
  | [], _ :: _, _, h2 => by simp [charsLE] at h2
  | _ :: _, [], h1, _ => by simp [charsLE] at h1
  | a :: as, b :: bs, h1, h2 => by
    simp only [charsLE] at h1 h2
    by_cases hab : a < b
    · rw [if_neg (lt_asymm hab), if_pos hab] at h2
      exact Bool.noConfusion h2
    · by_cases hba : b < a
      · rw [if_neg hab, if_pos hba] at h1
        exact Bool.noConfusion h1
      · have heq : a = b := le_antisymm (not_lt.mp hba) (not_lt.mp hab)
        rw [if_neg hab, if_neg hba] at h1
        rw [if_neg hba, if_neg hab] at h2
        rw [heq, charsLE_antisymm as bs h1 h2]

instance : IsTotal WebhookEntry entryLE := ⟨fun a b => charsLE_total _ _⟩

instance : IsTrans WebhookEntry entryLE := ⟨fun _ _ _ h1 h2 => charsLE_trans _ _ _ h1 h2⟩

theorem selectorDefault_name (o : generatorOptions) (wh : AdmissionWebhook) :
    (selectorDefault o wh).name = wh.name := by
  unfold selectorDefault
  split
  · split <;> rfl
  · rfl

theorem entryPure_name (o : generatorOptions) (p : String) (wh : AdmissionWebhook) :
    (entryPure o p wh).name = wh.name :=
  selectorDefault_name o wh

theorem getClientConfigWithPath_eq (o : generatorOptions) (p : String)
    (hx : ¬(o.host.isSome = true ∧ o.service.isSome = true)) :
    getClientConfigWithPath o p = setPath (ccPure o) p := by
  unfold getClientConfigWithPath
  rw [getClientConfig_eq o hx]

theorem admissionWebhookFor_eq (o : generatorOptions) (p : String)
    (w : AdmissionWebhook)
    (hx : ¬(o.host.isSome = true ∧ o.service.isSome = true)) :
    admissionWebhookFor o p w =
      if parseOK (ccPure o) then .ok (entryPure o p w) else .error GenError.urlParse := by
  simp only [admissionWebhookFor]
  rw [getClientConfigWithPath_eq o p hx]
  unfold setPath
  by_cases hpo : parseOK (ccPure o) = true
  · rw [if_pos hpo, if_pos hpo]
    rfl
  · rw [if_neg hpo, if_neg hpo]

theorem validateAll_ok :
    ∀ reg : List (String × AdmissionWebhook),
      (∀ pw ∈ reg, (Validate pw.2).1 = none) →
      validateAll reg = .ok (reg.map fun pw => (pw.1, onceDo pw.2))
  | [], _ => rfl
  | (p, w) :: rest, h => by
    have hw : validateChecks (onceDo w) = none := h (p, w) (List.mem_cons_self _ _)
    have hrest := validateAll_ok rest (fun pw hm => h pw (List.mem_cons_of_mem _ hm))
    have hv : Validate w = (none, onceDo w) := by
      rw [show Validate w = (validateChecks (onceDo w), onceDo w) from rfl, hw]
    simp only [validateAll]
    rw [hv, hrest]
    rfl

theorem collectWebhooks_eq (o : generatorOptions) (ty : WebhookType)
    (hx : ¬(o.host.isSome = true ∧ o.service.isSome = true))
    (hok : parseOK (ccPure o) = true) :
    ∀ reg, collectWebhooks o ty reg = .ok (collectPure o ty reg)
  | [] => rfl
  | (p, w) :: rest => by
    have ih := collectWebhooks_eq o ty hx hok rest
    simp only [collectWebhooks]
    by_cases ht : (GetType w).1 = ty
    · rw [if_neg (not_not_intro ht), admissionWebhookFor_eq o p (GetType w).2 hx,
          if_pos hok, ih]
      simp [collectPure, List.filter_cons, ht]
    · rw [if_pos ht, ih]
      simp [collectPure, List.filter_cons, ht]

theorem collectWebhooks_bad (o : generatorOptions) (ty : WebhookType)
    (hx : ¬(o.host.isSome = true ∧ o.service.isSome = true))
    (hbad : parseOK (ccPure o) = false) :
    ∀ reg, collectWebhooks o ty reg =
      if (reg.filter fun pw => (GetType pw.2).1 == ty).length = 0 then .ok []
      else .error GenError.urlParse
  | [] => rfl
  | (p, w) :: rest => by
    have ih := collectWebhooks_bad o ty hx hbad rest
    have hnot : ¬ parseOK (ccPure o) = true := by
      rw [hbad]
      decide
    simp only [collectWebhooks]
    by_cases ht : (GetType w).1 = ty
    · rw [if_neg (not_not_intro ht), admissionWebhookFor_eq o p (GetType w).2 hx,
          if_neg hnot]
      simp [List.filter_cons, ht]
    · rw [if_pos ht, ih, List.filter_cons_of_neg (by simp [ht])]

theorem collectPure_perm (o : generatorOptions) (ty : WebhookType)
    {reg₁ reg₂ : List (String × AdmissionWebhook)} (h : List.Perm reg₁ reg₂) :
    List.Perm (collectPure o ty reg₁) (collectPure o ty reg₂) :=
  (h.filter _).map _

theorem collectPure_names_sublist (o : generatorOptions) (ty : WebhookType)
    (reg : List (String × AdmissionWebhook)) :
    List.Sublist ((collectPure o ty reg).map WebhookEntry.name)
      (reg.map fun pw => (onceDo pw.2).name) := by
  unfold collectPure
  rw [List.map_map]
  have hcongr :
      (reg.filter fun pw => (GetType pw.2).1 == ty).map
        (WebhookEntry.name ∘ fun pw => entryPure o pw.1 (GetType pw.2).2) =
      (reg.filter fun pw => (GetType pw.2).1 == ty).map
        fun pw => (onceDo pw.2).name := by
    apply List.map_congr_left
    intro pw _
    simp [Function.comp, entryPure_name, GetType]
  rw [hcongr]
  exact (List.filter_sublist reg).map _

theorem sortByName_eq_of_perm (l₁ l₂ : List WebhookEntry)
    (hperm : List.Perm l₁ l₂) (hnodup : (l₁.map WebhookEntry.name).Nodup) :
    sortByName l₁ = sortByName l₂ := by
  have hp1 := List.perm_insertionSort entryLE l₁
  have hp2 := List.perm_insertionSort entryLE l₂
  have hp : List.Perm (sortByName l₁) (sortByName l₂) :=
    (hp1.trans hperm).trans hp2.symm
  have hs1 := List.sorted_insertionSort entryLE l₁
  have hs2 := List.sorted_insertionSort entryLE l₂
  refine List.Perm.eq_of_sorted ?_ hs1 hs2 hp
  intro a b ha hb hab hba
  have hname : a.name = b.name := String.ext (charsLE_antisymm _ _ hab hba)
  have ha1 : a ∈ l₁ := hp1.subset ha
  have hb1 : b ∈ l₁ := hperm.symm.subset (hp2.subset hb)
  exact List.inj_on_of_nodup_map hnodup ha1 hb1 hname

theorem mutatingWHConfigs_eq (o : generatorOptions)
    (reg : List (String × AdmissionWebhook))
    (hx : ¬(o.host.isSome = true ∧ o.service.isSome = true))
    (hok : parseOK (ccPure o) = true) :
    mutatingWHConfigs o reg =
      (if (sortByName (collectPure o .mutating reg)).length > 0
        then .ok (some (RuntimeObject.mutatingConfig o.mutatingWebhookConfigName
          (sortByName (collectPure o .mutating reg))))
        else .ok none) := by
  unfold mutatingWHConfigs
  rw [collectWebhooks_eq o .mutating hx hok reg]

theorem validatingWHConfigs_eq (o : generatorOptions)
    (reg : List (String × AdmissionWebhook))
    (hx : ¬(o.host.isSome = true ∧ o.service.isSome = true))
    (hok : parseOK (ccPure o) = true) :
    validatingWHConfigs o reg =
      (if (sortByName (collectPure o .validating reg)).length > 0
        then .ok (some (RuntimeObject.validatingConfig o.validatingWebhookConfigName
          (sortByName (collectPure o .validating reg))))
        else .ok none) := by
  unfold validatingWHConfigs
  rw [collectWebhooks_eq o .validating hx hok reg]

theorem mutatingWHConfigs_bad (o : generatorOptions)
    (reg : List (String × AdmissionWebhook))
    (hx : ¬(o.host.isSome = true ∧ o.service.isSome = true))
    (hbad : parseOK (ccPure o) = false) :
    mutatingWHConfigs o reg =
      (if (reg.filter fun pw => (GetType pw.2).1 == WebhookType.mutating).length = 0
        then .ok none else .error GenError.urlParse) := by
  unfold mutatingWHConfigs
  rw [collectWebhooks_bad o .mutating hx hbad reg]
  by_cases hl : (reg.filter fun pw => (GetType pw.2).1 == WebhookType.mutating).length = 0
  · rw [if_pos hl, if_pos hl]
    rfl
  · rw [if_neg hl, if_neg hl]

theorem validatingWHConfigs_bad (o : generatorOptions)
    (reg : List (String × AdmissionWebhook))
    (hx : ¬(o.host.isSome = true ∧ o.service.isSome = true))
    (hbad : parseOK (ccPure o) = false) :
    validatingWHConfigs o reg =
      (if (reg.filter fun pw => (GetType pw.2).1 == WebhookType.validating).length = 0
        then .ok none else .error GenError.urlParse) := by
  unfold validatingWHConfigs
  rw [collectWebhooks_bad o .validating hx hbad reg]
  by_cases hl : (reg.filter fun pw => (GetType pw.2).1 == WebhookType.validating).length = 0
  · rw [if_pos hl, if_pos hl]
    rfl
  · rw [if_neg hl, if_neg hl]

theorem whConfigs_perm (o : generatorOptions) (reg' : List (String × AdmissionWebhook))
    (hperm : List.Perm reg' o.registry)
    (hval : ∀ pw ∈ o.registry, (Validate pw.2).1 = none)
    (hnodup : (o.registry.map fun pw => (onceDo pw.2).name).Nodup)
    (hx : ¬(o.host.isSome = true ∧ o.service.isSome = true)) :
    whConfigs { o with registry := reg' } = whConfigs o := by
  have hval' : ∀ pw ∈ reg', (Validate pw.2).1 = none :=
    fun pw hm => hval pw (hperm.subset hm)
  have hpermD : List.Perm (reg'.map fun pw => (pw.1, onceDo pw.2))
      (o.registry.map fun pw => (pw.1, onceDo pw.2)) := hperm.map _
  have hndD : ((o.registry.map fun pw => (pw.1, onceDo pw.2)).map
      fun pw => (onceDo pw.2).name).Nodup := by
    rw [List.map_map]
    have hco : (o.registry.map
        ((fun pw : String × AdmissionWebhook => (onceDo pw.2).name) ∘
          fun pw => (pw.1, onceDo pw.2))) =
        o.registry.map fun pw => (onceDo pw.2).name := by
      apply List.map_congr_left
      intro pw _
      simp [Function.comp, onceDo_idem]
    rw [hco]
    exact hnodup
  have hndD' : ((reg'.map fun pw => (pw.1, onceDo pw.2)).map
      fun pw => (onceDo pw.2).name).Nodup :=
    ((hpermD.map _).nodup_iff).mpr hndD
  have hsortm :
      sortByName (collectPure o .mutating (reg'.map fun pw => (pw.1, onceDo pw.2))) =
      sortByName (collectPure o .mutating (o.registry.map fun pw => (pw.1, onceDo pw.2))) := by
    apply sortByName_eq_of_perm
    · exact collectPure_perm o .mutating hpermD
    · exact List.Nodup.sublist (collectPure_names_sublist o .mutating _) hndD'
  have hsortv :
      sortByName (collectPure o .validating (reg'.map fun pw => (pw.1, onceDo pw.2))) =
      sortByName (collectPure o .validating (o.registry.map fun pw => (pw.1, onceDo pw.2))) := by
    apply sortByName_eq_of_perm
    · exact collectPure_perm o .validating hpermD
    · exact List.Nodup.sublist (collectPure_names_sublist o .validating _) hndD'
  simp only [whConfigs]
  rw [validateAll_ok reg' hval', validateAll_ok o.registry hval]
  simp only []
  by_cases hpo : parseOK (ccPure o) = true
  · rw [mutatingWHConfigs_eq { o with registry := reg' } _ hx hpo,
        mutatingWHConfigs_eq o _ hx hpo,
        validatingWHConfigs_eq { o with registry := reg' } _ hx hpo,
        validatingWHConfigs_eq o _ hx hpo,
        show collectPure { o with registry := reg' } = collectPure o from rfl,
        show ({ o with registry := reg' } : generatorOptions).mutatingWebhookConfigName =
          o.mutatingWebhookConfigName from rfl,
        show ({ o with registry := reg' } : generatorOptions).validatingWebhookConfigName =
          o.validatingWebhookConfigName from rfl,
        hsortm, hsortv]
  · have hbad : parseOK (ccPure o) = false := by
      cases hq : parseOK (ccPure o)
      · rfl
      · exact absurd hq hpo
    have hlm := (List.Perm.filter
      (fun pw => (GetType pw.2).1 == WebhookType.mutating) hpermD).length_eq
    have hlv := (List.Perm.filter
      (fun pw => (GetType pw.2).1 == WebhookType.validating) hpermD).length_eq
    rw [mutatingWHConfigs_bad { o with registry := reg' } _ hx hbad,
        mutatingWHConfigs_bad o _ hx hbad,
        validatingWHConfigs_bad { o with registry := reg' } _ hx hbad,
        validatingWHConfigs_bad o _ hx hbad,
        hlm, hlv]

theorem generate_perm (o : generatorOptions) (reg' : List (String × AdmissionWebhook))
    (hperm : List.Perm reg' o.registry)
    (hval : ∀ pw ∈ o.registry, (Validate pw.2).1 = none)
    (hnodup : (o.registry.map fun pw => (onceDo pw.2).name).Nodup)
    (hx : ¬(o.host.isSome = true ∧ o.service.isSome = true)) :
    Generate { o with registry := reg' } = Generate o := by
  have hx' : ¬((setDefault o).host.isSome = true ∧
      (setDefault o).service.isSome = true) := by
    obtain ⟨-, hsvc, hboth, hkeep⟩ := setDefault_fields o
    by_cases hb : o.host = none ∧ o.service = none
    · rw [hsvc, hb.2]
      rintro ⟨-, hc⟩
      exact absurd hc (by simp)
    · rw [hkeep hb, hsvc]
      exact hx
  obtain ⟨hreg, -, -, -⟩ := setDefault_fields o
  have hperm2 : List.Perm reg' (setDefault o).registry := by rw [hreg]; exact hperm
  have hval2 : ∀ pw ∈ (setDefault o).registry, (Validate pw.2).1 = none := by
    rw [hreg]; exact hval
  have hnodup2 : ((setDefault o).registry.map fun pw => (onceDo pw.2).name).Nodup := by
    rw [hreg]; exact hnodup
  simp only [Generate]
  rw [setDefault_registry_update o reg',
      whConfigs_perm (setDefault o) reg' hperm2 hval2 hnodup2 hx']
  rfl

theorem mutatingWHConfigs_shape (o : generatorOptions)
    (reg : List (String × AdmissionWebhook)) (x : RuntimeObject)
    (h : mutatingWHConfigs o reg = .ok (some x)) :
    ∃ whs, x = RuntimeObject.mutatingConfig o.mutatingWebhookConfigName whs ∧
      List.Sorted entryLE whs := by
  unfold mutatingWHConfigs at h
  cases hc : collectWebhooks o .mutating reg with
  | error e =>
    rw [hc] at h
    exact Except.noConfusion h
  | ok ws =>
    rw [hc] at h
    simp only [] at h
    by_cases hl : (sortByName ws).length > 0
    · rw [if_pos hl] at h
      exact ⟨sortByName ws, (Option.some.inj (Except.ok.inj h)).symm,
        List.sorted_insertionSort entryLE ws⟩
    · rw [if_neg hl] at h
      exact Option.noConfusion (Except.ok.inj h)

theorem validatingWHConfigs_shape (o : generatorOptions)
    (reg : List (String × AdmissionWebhook)) (x : RuntimeObject)
    (h : validatingWHConfigs o reg = .ok (some x)) :
    ∃ whs, x = RuntimeObject.validatingConfig o.validatingWebhookConfigName whs ∧
      List.Sorted entryLE whs := by
  unfold validatingWHConfigs at h
  cases hc : collectWebhooks o .validating reg with
  | error e =>
    rw [hc] at h
    exact Except.noConfusion h
  | ok ws =>
    rw [hc] at h
    simp only [] at h
    by_cases hl : (sortByName ws).length > 0
    · rw [if_pos hl] at h
      exact ⟨sortByName ws, (Option.some.inj (Except.ok.inj h)).symm,
        List.sorted_insertionSort entryLE ws⟩
    · rw [if_neg hl] at h
      exact Option.noConfusion (Except.ok.inj h)

theorem getService_ne_mutating (o : generatorOptions) (n : String)
    (whs : List WebhookEntry) : ¬ getService o = RuntimeObject.mutatingConfig n whs := by
  unfold getService
  cases o.service <;> intro hc <;> exact RuntimeObject.noConfusion hc

theorem getService_ne_validating (o : generatorOptions) (n : String)
    (whs : List WebhookEntry) : ¬ getService o = RuntimeObject.validatingConfig n whs := by
  unfold getService
  cases o.service <;> intro hc <;> exact RuntimeObject.noConfusion hc

theorem whConfigs_sorted (o : generatorOptions) (objs : List RuntimeObject)
    (h : whConfigs o = .ok objs) :
    (∀ n whs, RuntimeObject.mutatingConfig n whs ∈ objs → List.Sorted entryLE whs) ∧
    (∀ n whs, RuntimeObject.validatingConfig n whs ∈ objs → List.Sorted entryLE whs) := by
  unfold whConfigs at h
  cases hva : validateAll o.registry with
  | error e =>
    rw [hva] at h
    exact Except.noConfusion h
  | ok reg =>
    rw [hva] at h
    simp only [] at h
    cases hm : mutatingWHConfigs o reg with
    | error e =>
      rw [hm] at h
      exact Except.noConfusion h
    | ok m =>
      rw [hm] at h
      simp only [] at h
      cases hvd : validatingWHConfigs o reg with
      | error e =>
        rw [hvd] at h
        exact Except.noConfusion h
      | ok v =>
        rw [hvd] at h
        simp only [] at h
        obtain rfl := Except.ok.inj h
        cases m with
        | none =>
          cases v with
          | none =>
            constructor <;> intro n whs hmem <;> simp at hmem
          | some xv =>
            obtain ⟨whsv, hxv, hsv⟩ := validatingWHConfigs_shape o reg xv hvd
            constructor <;> intro n whs hmem <;> simp at hmem
            · rw [hxv] at hmem
              exact RuntimeObject.noConfusion hmem
            · rw [hxv] at hmem
              obtain ⟨-, h2⟩ := RuntimeObject.validatingConfig.inj hmem
              exact h2 ▸ hsv
        | some xm =>
          obtain ⟨whsm, hxm, hsm⟩ := mutatingWHConfigs_shape o reg xm hm
          cases v with
          | none =>
            constructor <;> intro n whs hmem <;> simp at hmem
            · rw [hxm] at hmem
              obtain ⟨-, h2⟩ := RuntimeObject.mutatingConfig.inj hmem
              exact h2 ▸ hsm
            · rw [hxm] at hmem
              exact RuntimeObject.noConfusion hmem
          | some xv =>
            obtain ⟨whsv, hxv, hsv⟩ := validatingWHConfigs_shape o reg xv hvd
            constructor <;> intro n whs hmem <;> simp at hmem <;>
              rcases hmem with hmem | hmem
            · rw [hxm] at hmem
              obtain ⟨-, h2⟩ := RuntimeObject.mutatingConfig.inj hmem
              exact h2 ▸ hsm
            · rw [hxv] at hmem
              exact RuntimeObject.noConfusion hmem
            · rw [hxm] at hmem
              exact RuntimeObject.noConfusion hmem
            · rw [hxv] at hmem
              obtain ⟨-, h2⟩ := RuntimeObject.validatingConfig.inj hmem
              exact h2 ▸ hsv

theorem generate_sorted (o : generatorOptions) (objs : List RuntimeObject)
    (h : Generate o = .ok objs) :
    (∀ n whs, RuntimeObject.mutatingConfig n whs ∈ objs → List.Sorted entryLE whs) ∧
    (∀ n whs, RuntimeObject.validatingConfig n whs ∈ objs → List.Sorted entryLE whs) := by
  simp only [Generate] at h
  cases hw : whConfigs (setDefault o) with
  | error e =>
    rw [hw] at h
    exact Except.noConfusion h
  | ok whs0 =>
    rw [hw] at h
    simp only [] at h
    obtain rfl := Except.ok.inj h
    obtain ⟨h1, h2⟩ := whConfigs_sorted (setDefault o) whs0 hw
    constructor
    · intro n whs hmem
      rcases List.mem_append.mp hmem with hmem | hmem
      · exact h1 n whs hmem
      · simp at hmem
        exact absurd hmem.symm (getService_ne_mutating (setDefault o) n whs)
    · intro n whs hmem
      rcases List.mem_append.mp hmem with hmem | hmem
      · exact h2 n whs hmem
      · simp at hmem
        exact absurd hmem.symm (getService_ne_validating (setDefault o) n whs)

/-!  ## Claim theorems about ordering and determinism  -/

/-- C3 counterexample: two valid mutating descriptors that share the name
`x.example.com` but live at different paths; the two iteration orders of
this same registry content produce different outputs (the equal-name
entries keep their encounter order through the sort), so output is not
identical regardless of the registry map iteration order. -/
theorem generate_order_dependent :
    List.Perm oX12.registry oX21.registry ∧ ¬ Generate oX12 = Generate oX21 := by
  constructor
  · decide
  · decide

/-- C3 (amended): the webhook entries inside every emitted mutating and
validating configuration are sorted by entry name ascending; and for
registries whose descriptors all validate and whose defaulted names are
pairwise distinct (and with host and service not both set), `Generate`
produces identical output on every iteration order of the registry; in
particular the mutating descriptors named `b.example.com` and
`a.example.com` registered in that order come out in the order
[a.example.com, b.example.com]. -/
theorem generate_deterministic_sorted :
    (∀ o objs n whs, Generate o = .ok objs →
      RuntimeObject.mutatingConfig n whs ∈ objs → List.Sorted entryLE whs) ∧
    (∀ o objs n whs, Generate o = .ok objs →
      RuntimeObject.validatingConfig n whs ∈ objs → List.Sorted entryLE whs) ∧
    (∀ o reg', List.Perm reg' o.registry →
      (∀ pw ∈ o.registry, (Validate pw.2).1 = none) →
      (o.registry.map fun pw => (onceDo pw.2).name).Nodup →
      ¬(o.host.isSome = true ∧ o.service.isSome = true) →
      Generate { o with registry := reg' } = Generate o) ∧
    Except.map mutatingEntryNames (Generate oBA) =
      .ok [["a.example.com", "b.example.com"]] := by
  refine ⟨?_, ?_, ?_, by decide⟩
  · intro o objs n whs h hm
    exact (generate_sorted o objs h).1 n whs hm
  · intro o objs n whs h hm
    exact (generate_sorted o objs h).2 n whs hm
  · intro o reg' hperm hval hnodup hx
    exact generate_perm o reg' hperm hval hnodup hx

/-- C3 witness: the two iteration orders of the distinct-name registry of
`oBA` generate identical output. -/
theorem generate_deterministic_sorted_witness :
    Generate { oBA with registry := [("/a", whA), ("/b", whB)] } = Generate oBA :=
  generate_deterministic_sorted.2.2.1 oBA [("/a", whA), ("/b", whB)]
    (by decide) (by decide) (by decide) (by decide)

end Webhook
